import Mathlib

/-!
Shallow embedding of the rally-data-for-vmix pipeline.

Each definition translates one Python function of the repository:
  src/api_client.py       : `_parse_csv_to_2d_array`, `get_entry_list`
  src/data_store.py       : `filter_racing_numbers`, `RallyDataProcessor`
  src/http_handler.py     : `_validate_task`, `_execute_task`, `trigger_data_update`
  src/multithreaded_datastore.py : `MultithreadedDatastore.update_from_excel`
  src/excel_exporter.py   : `_get_column_letter`
  src/csv_exporter.py     : `export_to_csv`
External effects (HTTP transport, Excel workbook, file system) are passed in
as explicit inputs; exceptions crossing a component boundary are `Except`.
Cells are modelled as strings of ASCII characters (the Python `str.isdigit`
and `int` subtleties on exotic Unicode digits are outside the model).
-/

/-- Python `str.strip` whitespace set (space, tab, newline, return, vertical
tab, form feed). -/
def pyIsSpace (c : Char) : Bool :=
  c = ' ' || c = '\t' || c = '\n' || c = '\r' || c = Char.ofNat 11 || c = Char.ofNat 12

/-- Python `str.strip()`: remove leading and trailing whitespace. -/
def pyStrip (s : String) : String :=
  String.mk (((s.toList.dropWhile pyIsSpace).reverse.dropWhile pyIsSpace).reverse)

/-- Python `str.isdigit()` restricted to ASCII: non-empty and all chars `0`-`9`. -/
def pyIsDigit (s : String) : Bool :=
  !s.isEmpty && s.toList.all (fun c => '0' ≤ c && c ≤ '9')

/-- Python `int(s)` on a string of ASCII digits. -/
def pyToNat (s : String) : Nat :=
  s.toList.foldl (fun n c => 10 * n + (c.toNat - 48)) 0

/-- One parsed CSV row emitted at a line break: a truly blank line (no quoted
field started, no field content, no delimiter seen) is the empty row, as with
Python `csv.reader`. -/
def csvEmitRow (q : Bool) (field : List Char) (row : List String) : List String :=
  if q || !field.isEmpty || !row.isEmpty then (String.mk field :: row).reverse else []

/-- Core of Python `csv.reader` (default dialect): comma delimiter, `"` quote
char opening only at field start, doubled quote inside a quoted field, `\r\n`,
`\r` and `\n` as row terminators (kept literally inside quotes).
State: `q` = current field was opened by a quote, `inQ` = currently inside
quotes, `field` = current field, `row` = fields of the current row (reversed),
`rows` = finished rows (reversed). -/
def csvAux : Bool → Bool → List Char → List String → List (List String) → List Char →
    List (List String)
  | q, _, field, row, rows, [] =>
      if q || !field.isEmpty || !row.isEmpty then
        ((String.mk field :: row).reverse :: rows).reverse
      else rows.reverse
  | q, true, field, row, rows, '"' :: '"' :: rest => csvAux q true (field ++ ['"']) row rows rest
  | q, true, field, row, rows, '"' :: rest => csvAux q false field row rows rest
  | q, true, field, row, rows, c :: rest => csvAux q true (field ++ [c]) row rows rest
  | q, false, field, row, rows, '"' :: rest =>
      if field.isEmpty then csvAux true true field row rows rest
      else csvAux q false (field ++ ['"']) row rows rest
  | _, false, field, row, rows, ',' :: rest => csvAux false false [] (String.mk field :: row) rows rest
  | q, false, field, row, rows, '\r' :: '\n' :: rest =>
      csvAux false false [] [] (csvEmitRow q field row :: rows) rest
  | q, false, field, row, rows, '\r' :: rest =>
      csvAux false false [] [] (csvEmitRow q field row :: rows) rest
  | q, false, field, row, rows, '\n' :: rest =>
      csvAux false false [] [] (csvEmitRow q field row :: rows) rest
  | q, false, field, row, rows, c :: rest => csvAux q false (field ++ [c]) row rows rest

/-- `list(csv.reader(StringIO(content)))`. -/
def csvParse (content : String) : List (List String) :=
  csvAux false false [] [] [] content.toList

/-- `csv_content[1:] if csv_content.startswith(BOM)` (api_client.py:111-112). -/
def stripBOM (content : String) : String :=
  if content.startsWith (String.mk [Char.ofNat 0xFEFF]) then content.drop 1 else content

/-- `any(cell.strip() for cell in row)` (api_client.py:117). -/
def rowNonBlank (row : List String) : Bool :=
  row.any (fun cell => !(pyStrip cell).isEmpty)

/-- api_client.py `_parse_csv_to_2d_array`: strip a leading BOM, parse the CSV,
drop rows whose cells are all blank after trimming. -/
def parse_csv_to_2d_array (content : String) : List (List String) :=
  (csvParse (stripBOM content)).filter rowNonBlank

/-- models.py `APIEndpoint`: closed set of feed endpoints keyed by the `a`
parameter. -/
inductive APIEndpoint where
  | ENTRY_LIST | START_LIST | ROUTE_SHEET | STAGE_RESULTS | CURRENT_STAGE | ENHANCED_CURRENT
deriving DecidableEq, Repr

/-- `APIEndpoint.value` (the Python enum member's string value). -/
def APIEndpoint.value : APIEndpoint → String
  | .ENTRY_LIST => "8"
  | .START_LIST => "9"
  | .ROUTE_SHEET => "10"
  | .STAGE_RESULTS => "3"
  | .CURRENT_STAGE => "4"
  | .ENHANCED_CURRENT => "104"

/-- The Python enum constructor `APIEndpoint(s)`: `none` models the
`ValueError` raised on a value outside the closed set. -/
def APIEndpoint.ofString (s : String) : Option APIEndpoint :=
  if s = "8" then some .ENTRY_LIST
  else if s = "9" then some .START_LIST
  else if s = "10" then some .ROUTE_SHEET
  else if s = "3" then some .STAGE_RESULTS
  else if s = "4" then some .CURRENT_STAGE
  else if s = "104" then some .ENHANCED_CURRENT
  else none

/-- models.py `RallyClass`: closed set of class identifiers "1", "2", "3". -/
inductive RallyClass where
  | ORB_CLASS_1 | RALLYE2 | HISTORIC
deriving DecidableEq, Repr

/-- The Python enum constructor `RallyClass(s)`; `none` models `ValueError`. -/
def RallyClass.ofString (s : String) : Option RallyClass :=
  if s = "1" then some .ORB_CLASS_1
  else if s = "2" then some .RALLYE2
  else if s = "3" then some .HISTORIC
  else none

/-- Modelled from the spec: `APIEndpoint.needs_stage_id` is called at
http_handler.py:69, 71, 82 and 151 but its definition is absent from the
source files. Per the spec (every kind statically declares whether it is
stage-scoped) and the handler tables at http_handler.py:47-58 together with
the api_client signatures, the stage-scoped kinds are exactly STAGE_RESULTS,
CURRENT_STAGE and ENHANCED_CURRENT. -/
def APIEndpoint.needs_stage_id : APIEndpoint → Bool
  | .STAGE_RESULTS => true
  | .CURRENT_STAGE => true
  | .ENHANCED_CURRENT => true
  | _ => false

/-- models.py `APIResponse` as it is populated by api_client.py: a 2D array of
text cells plus success flag and optional error message. -/
structure APIResponse where
  endpoint : APIEndpoint
  stage_id : Option String := none
  rally_class : String := "1"
  data : List (List String)
  success : Bool := true
  error_message : Option String := none
deriving DecidableEq, Repr

/-- api_client.py `get_entry_list`: the transport outcome (response text or the
string of the exception raised by `_make_request`/parsing) is an explicit
input; on success the parsed rows are returned with `success := true`, any
exception is captured as a failed response with `data := []`. -/
def get_entry_list (rally_class : String) (transport : Except String String) : APIResponse :=
  match transport with
  | .ok content =>
      { endpoint := .ENTRY_LIST, rally_class := rally_class,
        data := parse_csv_to_2d_array content }
  | .error e =>
      { endpoint := .ENTRY_LIST, rally_class := rally_class,
        data := [], success := false, error_message := some e }

/-- data_store.py:21-25 — index of the first header cell that is non-empty and
whose stripped text equals `rs_column_name`. -/
def rsColumnIndex (headers : List String) (rs_column_name : String) : Option Nat :=
  headers.findIdx? (fun h => !h.isEmpty && pyStrip h = rs_column_name)

/-- data_store.py:33-50 — a data row is dropped iff it reaches past the RSz
column and the stripped cell there is a non-empty digit string whose integer
value exceeds 900; every other row is kept. -/
def shouldDrop (i : Nat) (row : List String) : Bool :=
  if !row.isEmpty && decide (i < row.length) then
    let s := pyStrip (row.getD i "")
    if !s.isEmpty && pyIsDigit s then decide (900 < pyToNat s) else false
  else false

/-- data_store.py `filter_racing_numbers`: tables with fewer than two rows pass
through; if no header cell matches the RSz column name the table passes
through; otherwise the header is kept and data rows are filtered by
`shouldDrop`. -/
def filter_racing_numbers (data : List (List String)) (rs_column_name : String := "RSz") :
    List (List String) :=
  match data with
  | [] => []
  | [h] => [h]
  | headers :: rest =>
      match rsColumnIndex headers rs_column_name with
      | none => headers :: rest
      | some i => headers :: rest.filter (fun row => !shouldDrop i row)

/-- A subscribed sink callable `(data, stage_id, rally_class)`; `.error`
models an exception raised by the callback. -/
def Sink : Type :=
  List (List String) → Option String → Option String → Except String Unit

/-- data_store.py `RallyDataProcessor`: per-endpoint ordered callback lists;
`self._callbacks.get(endpoint, [])` is modelled by the function defaulting
to `[]`. -/
structure RallyDataProcessor where
  callbacks : APIEndpoint → List Sink

/-- data_store.py `add_callback`: append to the endpoint's list. -/
def add_callback (p : RallyDataProcessor) (endpoint : APIEndpoint) (callback : Sink) :
    RallyDataProcessor :=
  { callbacks := fun e =>
      if e = endpoint then p.callbacks endpoint ++ [callback] else p.callbacks e }

/-- data_store.py `_trigger_callbacks`: invoke every callback in list order
with the same arguments; an exception from one (`.error`) is caught and logged
and the loop continues, so the outcome list has one entry per callback and is
returned normally (nothing is re-raised). -/
def trigger_callbacks (callbacks : List Sink) (data : List (List String))
    (stage_id : Option String) (rally_class : Option String) : List (Except String Unit) :=
  match callbacks with
  | [] => []
  | callback :: rest =>
      callback data stage_id rally_class :: trigger_callbacks rest data stage_id rally_class

/-- data_store.py `process_response`: a failed response is dropped before any
filtering or dispatch; a successful one is filtered by `filter_racing_numbers`
and dispatched to the endpoint's callbacks. Returns the filtered rows and the
per-sink outcomes of the dispatch. -/
def process_response (p : RallyDataProcessor) (response : APIResponse) :
    List (List String) × List (Except String Unit) :=
  if !response.success then ([], [])
  else
    let filtered := filter_racing_numbers response.data
    (filtered, trigger_callbacks (p.callbacks response.endpoint) filtered
      response.stage_id (some response.rally_class))

/-- The network fetch environment: what the api_client handler returns for a
given (endpoint, rally_class, stage_id) triple. The handlers never raise (all
transport and parse errors are captured into a failed `APIResponse`). -/
def Env : Type :=
  APIEndpoint → String → Option String → APIResponse

/-- One performed network fetch (for the no-network-activity observations). -/
structure FetchCall where
  endpoint : APIEndpoint
  rally_class : String
  stage_id : Option String
deriving DecidableEq, Repr

/-- Per-task outcome dict `{"success": ..., "error": ...}`. -/
structure ExecResult where
  success : Bool
  error : Option String
deriving DecidableEq, Repr

/-- http_handler.py `_execute_task`: perform the one fetch for the task (all
six endpoints have a handler in the tables), feed the response through
`process_response`, and report `{success, error}` from the response. Returns
the result, the sink-dispatch trace and the fetch trace. -/
def execute_task (env : Env) (p : RallyDataProcessor) (endpoint : APIEndpoint)
    (rally_class : String) (stage_id : Option String) :
    ExecResult × List (Except String Unit) × List FetchCall :=
  let response := env endpoint rally_class stage_id
  let outcome := process_response p response
  (⟨response.success, response.error_message⟩, outcome.2, [⟨endpoint, rally_class, stage_id⟩])

/-- http_handler.py `TaskItem`. -/
structure TaskItem where
  rally_class : String
  endpoint : String
  stage_ids : Option (List String) := none
deriving DecidableEq, Repr

/-- http_handler.py `_validate_task`: class and endpoint must parse
(`ValueError` otherwise), a stage-scoped endpoint needs a non-empty
`stage_ids`, a non-stage endpoint must have an empty or absent one. -/
def validate_task (index : Nat) (task : TaskItem) : Option String :=
  match RallyClass.ofString task.rally_class with
  | none =>
      some ("Task " ++ toString index ++ ": Invalid - '" ++ task.rally_class ++
        "' is not a valid RallyClass")
  | some _ =>
      match APIEndpoint.ofString task.endpoint with
      | none =>
          some ("Task " ++ toString index ++ ": Invalid - '" ++ task.endpoint ++
            "' is not a valid APIEndpoint")
      | some endpoint =>
          if endpoint.needs_stage_id && (task.stage_ids.getD []).isEmpty then
            some ("Task " ++ toString index ++ ": Endpoint '" ++ task.endpoint ++
              "' requires stage_ids")
          else if !endpoint.needs_stage_id && !(task.stage_ids.getD []).isEmpty then
            some ("Task " ++ toString index ++ ": Endpoint '" ++ task.endpoint ++
              "' does not use stage_ids")
          else none

/-- http_handler.py:134-138 — the collected validation error messages, in task
order. -/
def validation_errors (tasks : List TaskItem) : List String :=
  tasks.enum.filterMap (fun it => validate_task it.1 it.2)

/-- One expanded task with its `task_name`. -/
structure ExpandedTask where
  name : String
  endpoint : APIEndpoint
  rally_class : String
  stage_id : Option String
deriving DecidableEq, Repr

/-- http_handler.py:146-161 — a stage-scoped request becomes one task per
stage id, any other request becomes exactly one task; names are
`task_{i}_{class}_{endpoint}[_{stage}]`. The `none` endpoint branch is
unreachable after validation (the enum constructor would have raised). -/
def expand_tasks (tasks : List TaskItem) : List ExpandedTask :=
  (tasks.enum.map (fun it =>
    match APIEndpoint.ofString it.2.endpoint with
    | none => []
    | some endpoint =>
        if endpoint.needs_stage_id then
          (it.2.stage_ids.getD []).map (fun stage_id =>
            ⟨"task_" ++ toString it.1 ++ "_" ++ it.2.rally_class ++ "_" ++ it.2.endpoint ++
              "_" ++ stage_id, endpoint, it.2.rally_class, some stage_id⟩)
        else
          [⟨"task_" ++ toString it.1 ++ "_" ++ it.2.rally_class ++ "_" ++ it.2.endpoint,
            endpoint, it.2.rally_class, none⟩])).flatten

/-- Python dict assignment `d[k] = v`: overwrite in place, append if absent. -/
def dictInsert {α : Type} (k : String) (v : α) : List (String × α) → List (String × α)
  | [] => [(k, v)]
  | (k', v') :: rest => if k' = k then (k', v) :: rest else (k', v') :: dictInsert k v rest

/-- http_handler.py:172-179 — what lands in `task_results` for one task
result: a successful dict is stored as-is, anything else is replaced by
`{"success": False, "error": "Unknown error"}`. -/
def aggStep (r : ExecResult) : ExecResult :=
  if r.success then r else ⟨false, some "Unknown error"⟩

/-- http_handler.py:169-179 — fold the (task_name, result) pairs into the
`task_results` dict and the success count. -/
def aggregateAux (acc : List (String × ExecResult) × Nat) :
    List (String × ExecResult) → List (String × ExecResult) × Nat
  | [] => acc
  | (name, r) :: rest =>
      aggregateAux (dictInsert name (aggStep r) acc.1, acc.2 + if r.success then 1 else 0) rest

/-- The `task_results` dict and `success_count` for a list of named results. -/
def aggregate (pairs : List (String × ExecResult)) : List (String × ExecResult) × Nat :=
  aggregateAux ([], 0) pairs

/-- The JSON body returned by `/trigger` on success. -/
structure TriggerReport where
  tasks_requested : Nat
  tasks_executed : Nat
  tasks_successful : Nat
  results : List (String × ExecResult)
  success : Bool
deriving DecidableEq, Repr

/-- http_handler.py `trigger_data_update`: reject an empty batch; validate
every task and reject the whole batch with the joined error list if any task
is invalid (no fetch happens — the fetch trace is empty and neither `env` nor
`p` is consulted); otherwise expand, execute every expanded task, and
aggregate the report. `.error` models `HTTPException(400, detail)`. -/
def trigger_data_update (tasks : List TaskItem) (env : Env) (p : RallyDataProcessor) :
    Except String TriggerReport × List FetchCall :=
  if tasks.isEmpty then (.error "No tasks provided", [])
  else
    let errs := validation_errors tasks
    if !errs.isEmpty then (.error (String.intercalate "; " errs), [])
    else
      let expanded := expand_tasks tasks
      let outs := expanded.map (fun t =>
        (t.name, execute_task env p t.endpoint t.rally_class t.stage_id))
      let agg := aggregate (outs.map (fun o => (o.1, o.2.1)))
      let fetches := (outs.map (fun o => o.2.2.2)).flatten
      (.ok {
        tasks_requested := tasks.length
        tasks_executed := expanded.length
        tasks_successful := agg.2
        results := agg.1
        success := agg.2 == expanded.length }, fetches)

/-- One row of the Excel range value: xlwings returns a scalar for a
single-column range row and a list otherwise
(multithreaded_datastore.py:93-98 wraps scalars). -/
inductive XRow where
  | scalar (c : Option String)
  | cells (cs : List (Option String))
deriving DecidableEq, Repr

/-- The `isinstance(..., (list, tuple))` wrap of multithreaded_datastore.py. -/
def XRow.toCells : XRow → List (Option String)
  | .scalar c => [c]
  | .cells cs => cs

/-- Outcome of the Excel reads performed by `update_from_excel`: the workbook,
sheet or range access can raise, or the range read yields `.value` (possibly
`None`). -/
inductive ExcelInput where
  | bookError
  | sheetError
  | rangeError
  | ranged (v : Option (List XRow))
deriving DecidableEq, Repr

/-- multithreaded_datastore.py `MultithreadedDatastore` state: the two
class-keyed dicts. -/
structure MultithreadedDatastore where
  racing_numbers : List (String × String)
  stages : List (String × String)
deriving DecidableEq, Repr

/-- multithreaded_datastore.py:103-125 — loop body for one enumerated header
cell: a `None` header, a blank one, or one that is not a valid class
identifier leaves both accumulators unchanged (that column is skipped);
otherwise the non-`None`, non-blank racing number and stage cells of that
column are inserted under the class key. -/
def extractStep (racing_number_values stage_values : List (Option String))
    (acc : List (String × String) × List (String × String)) (ih : Nat × Option String) :
    List (String × String) × List (String × String) :=
  match ih.2 with
  | none => acc
  | some header =>
      let class_key := pyStrip header
      if class_key.isEmpty then acc
      else
        match RallyClass.ofString class_key with
        | none => acc
        | some _ =>
            let acc1 :=
              match racing_number_values.get? ih.1 with
              | some (some v) =>
                  let racing_number := pyStrip v
                  if !racing_number.isEmpty then dictInsert class_key racing_number acc.1
                  else acc.1
              | _ => acc.1
            let acc2 :=
              match stage_values.get? ih.1 with
              | some (some v) =>
                  let stage := pyStrip v
                  if !stage.isEmpty then dictInsert class_key stage acc.2
                  else acc.2
              | _ => acc.2
            (acc1, acc2)

/-- The `racing_numbers` and `stages` dicts built by the extraction loop. -/
def extractEntries (headers racing_number_values stage_values : List (Option String)) :
    List (String × String) × List (String × String) :=
  headers.enum.foldl (extractStep racing_number_values stage_values) ([], [])

/-- The entries a given Excel input yields: empty unless the range was read
as at least three rows. -/
def extractedEntries : ExcelInput → List (String × String) × List (String × String)
  | .ranged (some rows) =>
      if rows.length < 3 then ([], [])
      else
        extractEntries (rows.getD 0 (.cells [])).toCells (rows.getD 1 (.cells [])).toCells
          (rows.getD 2 (.cells [])).toCells
  | _ => ([], [])

/-- multithreaded_datastore.py `update_from_excel`: every failure path (book,
sheet or range access raising, a `None` or too-short range) returns `false`
with the store untouched; otherwise the three parallel rows are extracted and,
if at least one entry was found, each non-empty dict bulk-replaces its mapping
and the refresh returns `true`; with no entries it returns `false` and the
store is untouched. -/
def update_from_excel (s : MultithreadedDatastore) : ExcelInput → Bool × MultithreadedDatastore
  | .bookError => (false, s)
  | .sheetError => (false, s)
  | .rangeError => (false, s)
  | .ranged none => (false, s)
  | .ranged (some rows) =>
      if rows.length < 3 then (false, s)
      else
        let e := extractEntries (rows.getD 0 (.cells [])).toCells
          (rows.getD 1 (.cells [])).toCells (rows.getD 2 (.cells [])).toCells
        if !e.1.isEmpty || !e.2.isEmpty then
          (true,
            { racing_numbers := if e.1.isEmpty then s.racing_numbers else e.1,
              stages := if e.2.isEmpty then s.stages else e.2 })
        else (false, s)

/-- excel_exporter.py `_get_column_letter`: one letter up to 26, two letters up
to 702, and the literal fallback `"Z" + str(col_num)` beyond. -/
def get_column_letter (col_num : Nat) : String :=
  if col_num ≤ 26 then String.mk [Char.ofNat (64 + col_num)]
  else
    let col_index := col_num - 1
    if col_index < 702 then
      String.mk [Char.ofNat (65 + col_index / 26 - 1), Char.ofNat (65 + col_index % 26)]
    else "Z" ++ toString col_num

/-- Modelled from the spec: the bijective base-26 letter encoding of a 1-based
column number (1→A, 26→Z, 27→AA, …), stated for comparison with the code's
`_get_column_letter`. The first argument is fuel (≥ the column number). -/
def columnLetterSpecAux : Nat → Nat → String
  | _, 0 => ""
  | 0, _ + 1 => ""
  | fuel + 1, n + 1 => columnLetterSpecAux fuel (n / 26) ++ String.mk [Char.ofNat (65 + n % 26)]

/-- The spec's base-26 letter encoding of a 1-based column count. -/
def columnLetterSpec (n : Nat) : String :=
  columnLetterSpecAux n n

/-- csv_exporter.py `export_to_csv`: an empty table raises `ValueError` before
anything is written (`.error`); otherwise the delimiter-joined lines are
handed to the writer (`.ok (filename, lines)` — a write happens only on this
branch). -/
def export_to_csv (data : List (List String)) (filename : String) (delimiter : String) :
    Except String (String × List String) :=
  if data.isEmpty then .error "No data provided for export"
  else .ok (filename, data.map (fun row => String.intercalate delimiter row))

/-- Fixture: an environment whose every fetch fails with detail "boom". -/
def envFail : Env := fun endpoint rally_class stage_id =>
  { endpoint := endpoint, stage_id := stage_id, rally_class := rally_class,
    data := [], success := false, error_message := some "boom" }

/-- Fixture: an environment whose every fetch succeeds with a header-only
table. -/
def envOk : Env := fun endpoint rally_class stage_id =>
  { endpoint := endpoint, stage_id := stage_id, rally_class := rally_class,
    data := [["RSz"]] }

/-- Fixture: a processor with no registered callbacks. -/
def emptyProcessor : RallyDataProcessor := ⟨fun _ => []⟩

/-- Fixture: a sink that always raises. -/
def sinkBad : Sink := fun _ _ _ => .error "sink boom"

/-- Fixture: a sink that always succeeds. -/
def sinkGood : Sink := fun _ _ _ => .ok ()

/-- Fixture: a readable three-row registry range whose third header cell "x"
is not a valid class identifier. -/
def excelFixture : ExcelInput :=
  .ranged (some [.cells [some "1", some "2", some "x"],
    .cells [some "42", some "7", some ""], .cells [some "3", some "1", some ""]])

/-- `pyIsDigit` only holds for non-empty strings. -/
theorem pyIsDigit_ne_empty {s : String} (h : pyIsDigit s = true) : s.isEmpty = false := by
  cases he : s.isEmpty
  · rfl
  · unfold pyIsDigit at h
    rw [he] at h
    simp at h

/-- `shouldDrop` spelt out: the row reaches the column and the stripped cell
there is a digit string whose value exceeds 900. -/
theorem shouldDrop_eq (i : Nat) (row : List String) :
    shouldDrop i row =
      (decide (i < row.length) && pyIsDigit (pyStrip (row.getD i "")) &&
        decide (900 < pyToNat (pyStrip (row.getD i "")))) := by
  simp only [shouldDrop]
  set s := pyStrip (row.getD i "") with hs
  by_cases h : i < row.length
  · have hne : row.isEmpty = false := by
      cases row with
      | nil => simp at h
      | cons a l => rfl
    rw [hne, decide_eq_true h]
    cases hpd : pyIsDigit s with
    | false => simp [hpd]
    | true => simp [hpd, pyIsDigit_ne_empty hpd]
  · have hdec : decide (i < row.length) = false := by simp [h]
    rw [hdec]
    simp

/-- C5: the row filter always keeps the header row (the head of the table is
unchanged); when no header cell matches the racing-number column name the
original rows pass through unchanged; when the column is found at index `i`
the result is the header followed by exactly those data rows that are not
dropped, and a row is dropped precisely when it reaches column `i` and the
stripped cell there is a digit string whose integer value exceeds 900 — rows
with a missing, empty or non-numeric value there are kept. -/
theorem filter_racing_numbers_spec (data : List (List String)) (name : String) :
    ((filter_racing_numbers data name).head? = data.head?)
    ∧ (∀ headers rest, data = headers :: rest → rsColumnIndex headers name = none →
        filter_racing_numbers data name = data)
    ∧ (∀ headers rest i, data = headers :: rest → rest ≠ [] →
        rsColumnIndex headers name = some i →
        filter_racing_numbers data name =
          headers :: rest.filter (fun row =>
            !(decide (i < row.length) && pyIsDigit (pyStrip (row.getD i "")) &&
              decide (900 < pyToNat (pyStrip (row.getD i "")))))) := by
  refine ⟨?_, ?_, ?_⟩
  · cases data with
    | nil => rfl
    | cons headers t =>
      cases t with
      | nil => rfl
      | cons a l =>
        cases hidx : rsColumnIndex headers name with
        | none => simp [filter_racing_numbers, hidx]
        | some i => simp [filter_racing_numbers, hidx]
  · intro headers rest hdata hnone
    subst hdata
    cases rest with
    | nil => rfl
    | cons a l => simp [filter_racing_numbers, hnone]
  · intro headers rest i hdata hne hsome
    subst hdata
    cases rest with
    | nil => exact absurd rfl hne
    | cons a l =>
      have h1 : filter_racing_numbers (headers :: a :: l) name =
          headers :: (a :: l).filter (fun row => !shouldDrop i row) := by
        simp [filter_racing_numbers, hsome]
      rw [h1]
      congr 1
      apply List.filter_congr
      intro row _
      rw [shouldDrop_eq]

/-- C5 witness: on a concrete table the filter keeps the header, drops the
901 row and keeps the 900 row. -/
theorem filter_racing_numbers_spec_witness :
    filter_racing_numbers [["RSz", "n"], ["901", "a"], ["900", "b"]] "RSz" =
      [["RSz", "n"], ["900", "b"]] := by
  have h := (filter_racing_numbers_spec [["RSz", "n"], ["901", "a"], ["900", "b"]] "RSz").2.2
    ["RSz", "n"] [["901", "a"], ["900", "b"]] 0 rfl (by decide) (by decide)
  rw [h]
  decide

/-- C6: the row filter is idempotent — filtering an already-filtered table
yields the same table. -/
theorem filter_racing_numbers_idempotent (data : List (List String)) (name : String) :
    filter_racing_numbers (filter_racing_numbers data name) name =
      filter_racing_numbers data name := by
  cases data with
  | nil => rfl
  | cons headers t =>
    cases t with
    | nil => rfl
    | cons a l =>
      cases hidx : rsColumnIndex headers name with
      | none => simp [filter_racing_numbers, hidx]
      | some i =>
        have h1 : filter_racing_numbers (headers :: a :: l) name =
            headers :: (a :: l).filter (fun row => !shouldDrop i row) := by
          simp [filter_racing_numbers, hidx]
        rw [h1]
        cases hf : (a :: l).filter (fun row => !shouldDrop i row) with
        | nil => rfl
        | cons b m =>
          have h2 : filter_racing_numbers (headers :: b :: m) name =
              headers :: (b :: m).filter (fun row => !shouldDrop i row) := by
            simp [filter_racing_numbers, hidx]
          rw [h2, ← hf, List.filter_filter]
          congr 1
          apply List.filter_congr
          intro row _
          exact Bool.and_self _

/-- C7: dispatch invokes every subscribed sink in registration order with the
identical table — the outcome list is the sinks applied pointwise — so a
caught exception (`.error`) from one sink neither prevents any later sink's
invocation nor escapes dispatch; `add_callback` appends at the end of the
endpoint's registration order; and with two sinks of which the first raises,
the second still receives the table and the outcomes record the first as
failed and the second as succeeded. -/
theorem trigger_callbacks_order_isolation :
    (∀ (callbacks : List Sink) (data : List (List String)) (stage_id rally_class : Option String),
        trigger_callbacks callbacks data stage_id rally_class =
          callbacks.map (fun callback => callback data stage_id rally_class))
    ∧ (∀ (p : RallyDataProcessor) (endpoint : APIEndpoint) (callback : Sink),
        (add_callback p endpoint callback).callbacks endpoint =
          p.callbacks endpoint ++ [callback])
    ∧ (∀ (bad good : Sink) (data : List (List String)) (stage_id rally_class : Option String)
        (e : String), bad data stage_id rally_class = .error e →
        good data stage_id rally_class = .ok () →
        trigger_callbacks [bad, good] data stage_id rally_class = [.error e, .ok ()]) := by
  refine ⟨?_, ?_, ?_⟩
  · intro callbacks data stage_id rally_class
    induction callbacks with
    | nil => rfl
    | cons c rest ih => simp [trigger_callbacks, ih]
  · intro p endpoint callback
    simp [add_callback]
  · intro bad good data stage_id rally_class e hb hg
    simp [trigger_callbacks, hb, hg]

/-- C7 witness: concrete two-sink dispatch where the first sink raises and the
second still runs. -/
theorem trigger_callbacks_order_isolation_witness :
    trigger_callbacks [sinkBad, sinkGood] [["RSz"]] none (some "1") =
      [.error "sink boom", .ok ()] :=
  trigger_callbacks_order_isolation.2.2 sinkBad sinkGood [["RSz"]] none (some "1")
    "sink boom" rfl rfl

/-- C9 counterexample: at the 1-based column count 703 the code returns the
literal fallback "Z703", not the base-26 letter encoding "AAA". -/
theorem get_column_letter_703_counterexample :
    get_column_letter 703 = "Z703" ∧ columnLetterSpec 703 = "AAA" ∧
      get_column_letter 703 ≠ columnLetterSpec 703 := by decide

/-- C9 (amended): for every 1-based column count from 1 to 702 the code's
column letter is the base-26 letter encoding (in particular 1→A, 26→Z, 27→AA,
52→AZ, 53→BA); from 703 on it returns the literal fallback `"Z" ++ toString n`
instead. -/
theorem get_column_letter_base26_spec :
    (∀ n : Nat, 0 < n → n ≤ 702 → get_column_letter n = columnLetterSpec n)
    ∧ (∀ n : Nat, 702 < n → get_column_letter n = "Z" ++ toString n) := by
  constructor
  · have h : ∀ n < 703, (0 < n → get_column_letter n = columnLetterSpec n) := by
      set_option maxRecDepth 20000 in decide
    intro n h1 h2
    exact h n (by omega) h1
  · intro n h
    have h1 : ¬ n ≤ 26 := by omega
    have h2 : ¬ (n - 1 < 702) := by omega
    simp [get_column_letter, h1, h2]

/-- C9 witness: the amended theorem applied at the claim's sample points. -/
theorem get_column_letter_base26_spec_witness :
    get_column_letter 1 = "A" ∧ get_column_letter 26 = "Z" ∧ get_column_letter 27 = "AA"
    ∧ get_column_letter 52 = "AZ" ∧ get_column_letter 53 = "BA"
    ∧ get_column_letter 53 = columnLetterSpec 53 ∧ get_column_letter 703 = "Z" ++ toString 703 :=
  ⟨by decide, by decide, by decide, by decide, by decide,
    get_column_letter_base26_spec.1 53 (by decide) (by decide),
    get_column_letter_base26_spec.2 703 (by decide)⟩

/-- C10: the flat-file export raises `ValueError` exactly on an empty table —
on that branch nothing reaches the writer — and a non-empty table passes the
empty-data check and hands the joined lines to the writer. -/
theorem export_to_csv_empty_check (data : List (List String)) (filename delimiter : String) :
    (export_to_csv data filename delimiter = .error "No data provided for export" ↔ data = [])
    ∧ (data ≠ [] →
        export_to_csv data filename delimiter =
          .ok (filename, data.map (fun row => String.intercalate delimiter row))) := by
  cases data with
  | nil => simp [export_to_csv]
  | cons a l => simp [export_to_csv]

/-- C10 witness: a concrete non-empty table passes the check and yields the
joined lines. -/
theorem export_to_csv_empty_check_witness :
    export_to_csv [["a", "b"], ["c"]] "f.csv" "," = .ok ("f.csv", ["a,b", "c"]) := by
  rw [(export_to_csv_empty_check [["a", "b"], ["c"]] "f.csv" ",").2 (by decide)]
  rfl

/-- C1 counterexample: a fetch whose transport returns an entirely blank
payload is reported as succeeded with zero rows — the claimed invariant
"succeeded implies at least a header row" fails on the code. -/
theorem get_entry_list_empty_payload_counterexample :
    (get_entry_list "1" (.ok "")).success = true
    ∧ (get_entry_list "1" (.ok "")).data = [] := by decide

/-- C1 (amended): a fetch whose transport succeeds always reports
`succeeded = true` with rows equal to the blank-row-filtered CSV parse of the
payload, so the rows are non-empty whenever the payload parses to at least one
non-blank row (in particular whenever a header row is present, an
empty-but-successful fetch being the single header row with zero data rows);
a payload with no non-blank rows, however, yields a successful response with
zero rows. A transport error is reported as `succeeded = false`. -/
theorem get_entry_list_success_rows_spec (rally_class content : String) :
    (get_entry_list rally_class (.ok content)).success = true
    ∧ (get_entry_list rally_class (.ok content)).data =
        (csvParse (stripBOM content)).filter rowNonBlank
    ∧ ((csvParse (stripBOM content)).any rowNonBlank = true →
        (get_entry_list rally_class (.ok content)).data ≠ [])
    ∧ (∀ e, (get_entry_list rally_class (.error e)).success = false) := by
  refine ⟨rfl, rfl, ?_, fun e => rfl⟩
  intro h hnil
  have hdata : (get_entry_list rally_class (.ok content)).data =
      (csvParse (stripBOM content)).filter rowNonBlank := rfl
  rw [hdata] at hnil
  rw [List.filter_eq_nil_iff] at hnil
  rw [List.any_eq_true] at h
  obtain ⟨row, hmem, hnb⟩ := h
  exact hnil row hmem hnb

/-- C1 witness: a header-only payload yields a successful response whose rows
are exactly the single header row, hence non-empty. -/
theorem get_entry_list_success_rows_spec_witness :
    (get_entry_list "1" (.ok "RSz,Name\n42,x")).data ≠ []
    ∧ (get_entry_list "1" (.ok "RSz")).data = [["RSz"]] :=
  ⟨(get_entry_list_success_rows_spec "1" "RSz,Name\n42,x").2.2.1 (by decide), by decide⟩

/-- C2: a task passes validation exactly when its class and endpoint are in
the closed sets and `stage_ids` is non-empty precisely when the endpoint is
stage-scoped (so a stage-scoped endpoint with empty or absent stage ids, a
non-stage endpoint with stage ids, or an unknown class or endpoint is
rejected); and whenever any task of a non-empty batch is invalid the whole
batch is rejected with the joined list of every per-task error message, with
an empty fetch trace and an outcome that is a fixed value not depending on
the environment or processor — no network fetch is executed. -/
theorem trigger_validation_rejects_batch (tasks : List TaskItem) (env : Env)
    (p : RallyDataProcessor) (hne : tasks ≠ []) (hbad : validation_errors tasks ≠ []) :
    trigger_data_update tasks env p =
      (.error (String.intercalate "; " (validation_errors tasks)), [])
    ∧ (∀ i t, validate_task i t = none ↔
        (RallyClass.ofString t.rally_class).isSome = true
        ∧ ∃ endpoint, APIEndpoint.ofString t.endpoint = some endpoint
            ∧ (endpoint.needs_stage_id = true ↔ t.stage_ids.getD [] ≠ [])) := by
  constructor
  · have h1 : tasks.isEmpty = false := by
      cases tasks with
      | nil => exact absurd rfl hne
      | cons a l => rfl
    have h2 : (validation_errors tasks).isEmpty = false := by
      cases he : validation_errors tasks with
      | nil => exact absurd he hbad
      | cons a l => rfl
    simp [trigger_data_update, h1, h2]
  · intro i t
    cases hc : RallyClass.ofString t.rally_class with
    | none => simp [validate_task, hc]
    | some c =>
      cases he : APIEndpoint.ofString t.endpoint with
      | none => simp [validate_task, hc, he]
      | some endpoint =>
        cases hn : endpoint.needs_stage_id with
        | false =>
          cases hl : (t.stage_ids.getD []).isEmpty with
          | false =>
            have : t.stage_ids.getD [] ≠ [] := by
              intro hx
              rw [hx] at hl
              simp at hl
            simp [validate_task, hc, he, hn, hl, this]
          | true =>
            have : t.stage_ids.getD [] = [] := by
              cases hx : t.stage_ids.getD [] with
              | nil => rfl
              | cons a l => rw [hx] at hl; simp at hl
            simp [validate_task, hc, he, hn, hl, this]
        | true =>
          cases hl : (t.stage_ids.getD []).isEmpty with
          | false =>
            have : t.stage_ids.getD [] ≠ [] := by
              intro hx
              rw [hx] at hl
              simp at hl
            simp [validate_task, hc, he, hn, hl, this]
          | true =>
            have : t.stage_ids.getD [] = [] := by
              cases hx : t.stage_ids.getD [] with
              | nil => rfl
              | cons a l => rw [hx] at hl; simp at hl
            simp [validate_task, hc, he, hn, hl, this]

/-- C2 witness: a concrete batch with a stage-scoped endpoint and no stage ids
is rejected with that task's error message and an empty fetch trace. -/
theorem trigger_validation_rejects_batch_witness :
    trigger_data_update [⟨"1", "3", none⟩] envOk emptyProcessor =
      (.error "Task 0: Endpoint '3' requires stage_ids", [])
    ∧ (validate_task 0 ⟨"1", "3", none⟩ = none ↔
        (RallyClass.ofString "1").isSome = true
        ∧ ∃ endpoint, APIEndpoint.ofString "3" = some endpoint
            ∧ (endpoint.needs_stage_id = true ↔ (none : Option (List String)).getD [] ≠ [])) := by
  have h := trigger_validation_rejects_batch [⟨"1", "3", none⟩] envOk emptyProcessor
    (by decide) (by decide)
  refine ⟨?_, h.2 0 ⟨"1", "3", none⟩⟩
  rw [h.1]
  rfl

/-- `update_from_excel` on a readable range of at least three rows, phrased
through `extractedEntries`. -/
theorem update_from_excel_ranged_eq (s : MultithreadedDatastore) (rows : List XRow)
    (hlen : ¬ rows.length < 3) :
    update_from_excel s (.ranged (some rows)) =
      (if !(extractedEntries (.ranged (some rows))).1.isEmpty ||
          !(extractedEntries (.ranged (some rows))).2.isEmpty then
        (true,
          { racing_numbers := if (extractedEntries (.ranged (some rows))).1.isEmpty
              then s.racing_numbers else (extractedEntries (.ranged (some rows))).1,
            stages := if (extractedEntries (.ranged (some rows))).2.isEmpty
              then s.stages else (extractedEntries (.ranged (some rows))).2 })
      else (false, s)) := by
  simp only [update_from_excel, extractedEntries, if_neg hlen]

/-- C8: the refresh returns `true` exactly when at least one racing number or
stage entry was extracted from the three-row range; whenever it returns
`false` (workbook, sheet or range access failing, a missing or too-short
range, or no extractable entry) the store is returned unchanged; and the
extraction loop's step is the identity on any column whose header cell is
missing, blank, or not a valid class identifier — such a column is skipped
without failing the refresh. -/
theorem update_from_excel_spec (s : MultithreadedDatastore) (input : ExcelInput) :
    ((update_from_excel s input).1 = true ↔ extractedEntries input ≠ ([], []))
    ∧ ((update_from_excel s input).1 = false → (update_from_excel s input).2 = s)
    ∧ (∀ (racing_number_values stage_values : List (Option String))
        (acc : List (String × String) × List (String × String)) (i : Nat) (h : Option String),
        (h = none ∨ pyStrip (h.getD "") = "" ∨ RallyClass.ofString (pyStrip (h.getD "")) = none) →
        extractStep racing_number_values stage_values acc (i, h) = acc) := by
  refine ⟨?_, ?_, ?_⟩
  · cases input with
    | bookError => simp [update_from_excel, extractedEntries]
    | sheetError => simp [update_from_excel, extractedEntries]
    | rangeError => simp [update_from_excel, extractedEntries]
    | ranged v =>
      cases v with
      | none => simp [update_from_excel, extractedEntries]
      | some rows =>
        by_cases hlen : rows.length < 3
        · simp [update_from_excel, extractedEntries, hlen]
        · rw [update_from_excel_ranged_eq s rows hlen]
          generalize extractedEntries (ExcelInput.ranged (some rows)) = e
          obtain ⟨e1, e2⟩ := e
          cases e1 with
          | nil =>
            cases e2 with
            | nil => simp
            | cons a l => simp
          | cons a l => simp
  · cases input with
    | bookError => intro _; rfl
    | sheetError => intro _; rfl
    | rangeError => intro _; rfl
    | ranged v =>
      cases v with
      | none => intro _; rfl
      | some rows =>
        by_cases hlen : rows.length < 3
        · simp [update_from_excel, hlen]
        · rw [update_from_excel_ranged_eq s rows hlen]
          generalize extractedEntries (ExcelInput.ranged (some rows)) = e
          obtain ⟨e1, e2⟩ := e
          cases e1 with
          | nil =>
            cases e2 with
            | nil => intro _; rfl
            | cons a l => simp
          | cons a l => simp
  · intro racing_number_values stage_values acc i h hinv
    cases h with
    | none => rfl
    | some header =>
      rcases hinv with h1 | h1 | h1
      · exact absurd h1 (by simp)
      · simp only [Option.getD] at h1
        have he : (pyStrip header).isEmpty = true := by
          rw [h1]
          rfl
        simp [extractStep, he]
      · simp only [Option.getD] at h1
        by_cases he : (pyStrip header).isEmpty
        · simp [extractStep, he]
        · simp [extractStep, he, h1]

/-- C8 witness: an unreadable workbook leaves the store unchanged, and on a
readable range whose third header cell "x" is not a valid class the refresh
succeeds, skipping only that column. -/
theorem update_from_excel_spec_witness :
    (update_from_excel ⟨[("1", "old")], []⟩ .bookError).1 = false
    ∧ (update_from_excel ⟨[("1", "old")], []⟩ .bookError).2 = ⟨[("1", "old")], []⟩
    ∧ ((update_from_excel ⟨[("1", "old")], []⟩ excelFixture).1 = true ↔
        extractedEntries excelFixture ≠ ([], []))
    ∧ update_from_excel ⟨[("1", "old")], []⟩ excelFixture =
        (true, ⟨[("1", "42"), ("2", "7")], [("1", "3"), ("2", "1")]⟩) :=
  ⟨rfl, (update_from_excel_spec ⟨[("1", "old")], []⟩ .bookError).2.1 rfl,
    (update_from_excel_spec ⟨[("1", "old")], []⟩ excelFixture).1, by decide⟩

/-- C4 counterexample: a task whose fetch fails with failure detail "boom" is
recorded in the aggregated report with the fixed message "Unknown error", not
with the failure detail. -/
theorem trigger_failed_fetch_error_counterexample :
    (envFail .ENTRY_LIST "1" none).error_message = some "boom"
    ∧ ((trigger_data_update [⟨"1", "8", none⟩] envFail emptyProcessor).1.toOption.map
        (fun report => report.results)) =
      some [("task_0_1_8", ⟨false, some "Unknown error"⟩)]
    ∧ (some "Unknown error" : Option String) ≠ some "boom" := by
  refine ⟨rfl, ?_, by decide⟩
  rfl

/-- C4 (amended): for a task whose fetch returns `succeeded = false` with
failure detail `d`, the per-task execution records success = false with error
`d` and performs no dispatch (the failed response is dropped before any
filtering, so the sink trace is empty, and exactly the one fetch happened);
the batch aggregation step, however, replaces every failed per-task result by
the fixed message "Unknown error", and that is what the aggregated report's
entry for the task records. -/
theorem execute_task_failed_fetch_spec (env : Env) (p : RallyDataProcessor)
    (endpoint : APIEndpoint) (rally_class : String) (stage_id : Option String)
    (h : (env endpoint rally_class stage_id).success = false) :
    execute_task env p endpoint rally_class stage_id =
      (⟨false, (env endpoint rally_class stage_id).error_message⟩, [],
        [⟨endpoint, rally_class, stage_id⟩])
    ∧ aggStep ⟨false, (env endpoint rally_class stage_id).error_message⟩ =
        ⟨false, some "Unknown error"⟩ := by
  constructor
  · simp [execute_task, process_response, h]
  · rfl

/-- C4 witness: the amended theorem at a concrete failing environment. -/
theorem execute_task_failed_fetch_spec_witness :
    execute_task envFail emptyProcessor .ENTRY_LIST "1" none =
      (⟨false, some "boom"⟩, [], [⟨.ENTRY_LIST, "1", none⟩])
    ∧ aggStep ⟨false, some "boom"⟩ = ⟨false, some "Unknown error"⟩ :=
  execute_task_failed_fetch_spec envFail emptyProcessor .ENTRY_LIST "1" none rfl

/-- Flattening singleton blocks is a plain map. -/
theorem flatten_map_singleton {α β : Type} (l : List α) (f : α → β) :
    (l.map (fun x => [f x])).flatten = l.map f := by
  induction l with
  | nil => rfl
  | cons a rest ih => simp [ih]

/-- On a non-empty, fully valid batch, `trigger_data_update` returns the
aggregated report of the expanded tasks and a fetch trace of exactly one
fetch per expanded task, in expansion order. -/
theorem trigger_valid_batch_exec (tasks : List TaskItem) (env : Env) (p : RallyDataProcessor)
    (hne : tasks ≠ []) (hok : validation_errors tasks = []) :
    trigger_data_update tasks env p =
      (.ok { tasks_requested := tasks.length,
             tasks_executed := (expand_tasks tasks).length,
             tasks_successful := (aggregate ((expand_tasks tasks).map (fun t =>
               (t.name, (execute_task env p t.endpoint t.rally_class t.stage_id).1)))).2,
             results := (aggregate ((expand_tasks tasks).map (fun t =>
               (t.name, (execute_task env p t.endpoint t.rally_class t.stage_id).1)))).1,
             success := (aggregate ((expand_tasks tasks).map (fun t =>
               (t.name, (execute_task env p t.endpoint t.rally_class t.stage_id).1)))).2 ==
                 (expand_tasks tasks).length },
       (expand_tasks tasks).map (fun t => ⟨t.endpoint, t.rally_class, t.stage_id⟩)) := by
  have h1 : tasks.isEmpty = false := by
    cases tasks with
    | nil => exact absurd rfl hne
    | cons a l => rfl
  have h2 : (validation_errors tasks).isEmpty = true := by rw [hok]; rfl
  simp only [trigger_data_update, h1, h2, Bool.false_eq_true, if_false, Bool.not_true,
    List.map_map, Function.comp_def]
  simp only [execute_task]
  rw [flatten_map_singleton]

/-- The keys of a Python-dict insertion: unchanged when the key is present,
the key appended when absent. -/
theorem dictInsert_keys {α : Type} (k : String) (v : α) (l : List (String × α)) :
    (dictInsert k v l).map Prod.fst =
      if k ∈ l.map Prod.fst then l.map Prod.fst else l.map Prod.fst ++ [k] := by
  induction l with
  | nil => simp [dictInsert]
  | cons kv rest ih =>
    obtain ⟨k', v'⟩ := kv
    by_cases h : k' = k
    · subst h
      simp [dictInsert]
    · simp only [dictInsert, if_neg h, List.map_cons, ih]
      by_cases h2 : k ∈ rest.map Prod.fst
      · simp [h2, Ne.symm h]
      · simp [h2, Ne.symm h]

/-- A key is in the aggregated dict iff it is in the accumulator or among the
pairs. -/
theorem aggregateAux_keys_mem (pairs : List (String × ExecResult))
    (acc : List (String × ExecResult) × Nat) (n : String) :
    n ∈ (aggregateAux acc pairs).1.map Prod.fst ↔
      n ∈ acc.1.map Prod.fst ∨ n ∈ pairs.map Prod.fst := by
  induction pairs generalizing acc with
  | nil => simp [aggregateAux]
  | cons pr rest ih =>
    obtain ⟨name, r⟩ := pr
    rw [aggregateAux, ih]
    by_cases h : name ∈ acc.1.map Prod.fst
    · simp only [dictInsert_keys, h, if_true, List.map_cons, List.mem_cons]
      constructor
      · tauto
      · rintro (h1 | h1 | h1)
        · tauto
        · subst h1; exact Or.inl h
        · tauto
    · simp only [dictInsert_keys, h, if_false, List.map_cons, List.mem_cons, List.mem_append,
        List.mem_singleton]
      tauto

/-- Aggregation preserves distinctness of the dict's keys. -/
theorem aggregateAux_keys_nodup (pairs : List (String × ExecResult))
    (acc : List (String × ExecResult) × Nat) (h : (acc.1.map Prod.fst).Nodup) :
    ((aggregateAux acc pairs).1.map Prod.fst).Nodup := by
  induction pairs generalizing acc with
  | nil => simpa [aggregateAux] using h
  | cons pr rest ih =>
    obtain ⟨name, r⟩ := pr
    rw [aggregateAux]
    apply ih
    simp only [dictInsert_keys]
    by_cases h2 : name ∈ acc.1.map Prod.fst
    · simpa [h2] using h
    · simp only [h2, if_false]
      simp [List.nodup_append, h, h2]

/-- The report dict's keys are distinct and are exactly the task names fed to
aggregation. -/
theorem aggregate_keys (pairs : List (String × ExecResult)) :
    ((aggregate pairs).1.map Prod.fst).Nodup
    ∧ (∀ n, n ∈ (aggregate pairs).1.map Prod.fst ↔ n ∈ pairs.map Prod.fst) := by
  constructor
  · exact aggregateAux_keys_nodup pairs ([], 0) (by simp)
  · intro n
    rw [aggregate, aggregateAux_keys_mem]
    simp

/-- With distinct task names the report dict has one entry per pair. -/
theorem aggregate_length_of_nodup (pairs : List (String × ExecResult))
    (h : (pairs.map Prod.fst).Nodup) :
    (aggregate pairs).1.length = pairs.length := by
  obtain ⟨h1, h2⟩ := aggregate_keys pairs
  have hperm : List.Perm ((aggregate pairs).1.map Prod.fst) (pairs.map Prod.fst) :=
    (List.perm_ext_iff_of_nodup h1 h).mpr h2
  have := hperm.length_eq
  simpa using this

/-- Existential form of `trigger_valid_batch_exec` with the report's key
properties. -/
theorem trigger_valid_batch_report (tasks : List TaskItem) (env : Env) (p : RallyDataProcessor)
    (hne : tasks ≠ []) (hok : validation_errors tasks = []) :
    ∃ report, trigger_data_update tasks env p =
        (.ok report,
          (expand_tasks tasks).map (fun t => ⟨t.endpoint, t.rally_class, t.stage_id⟩))
      ∧ report.tasks_executed = (expand_tasks tasks).length
      ∧ (report.results.map Prod.fst).Nodup
      ∧ (∀ n, n ∈ report.results.map Prod.fst ↔ n ∈ (expand_tasks tasks).map ExpandedTask.name)
      ∧ (((expand_tasks tasks).map ExpandedTask.name).Nodup →
          report.results.length = (expand_tasks tasks).length) := by
  have hkeys : (((expand_tasks tasks).map (fun t =>
      (t.name, (execute_task env p t.endpoint t.rally_class t.stage_id).1))).map Prod.fst) =
      (expand_tasks tasks).map ExpandedTask.name := by
    simp [List.map_map, Function.comp_def]
  refine ⟨_, trigger_valid_batch_exec tasks env p hne hok, rfl, (aggregate_keys _).1, ?_, ?_⟩
  · intro n
    rw [(aggregate_keys _).2 n, hkeys]
  · intro hnodup
    have hlen := aggregate_length_of_nodup _ (by rw [hkeys]; exact hnodup)
    rw [hlen]
    simp

/-- C3 (amended): for every non-empty valid batch the orchestrator performs
exactly one fetch per stage id of each stage-scoped request and exactly one
per other request — the fetch trace is exactly the expansion, in order — and
reports `tasks_executed` equal to the number of expanded tasks; the
aggregated report has exactly one entry per distinct expanded task name
(entry names are distinct and are exactly the expanded names), hence exactly
one entry per expanded task whenever the expanded names are distinct — which
duplicate stage ids within one request violate; the claim's concrete
two-request batch always yields exactly 3 tasks and a report with exactly 3
entries, whatever the fetch outcomes. -/
theorem trigger_expansion_report_spec :
    (∀ (tasks : List TaskItem) (env : Env) (p : RallyDataProcessor),
      tasks ≠ [] → validation_errors tasks = [] →
      ∃ report, trigger_data_update tasks env p =
          (.ok report,
            (expand_tasks tasks).map (fun t => ⟨t.endpoint, t.rally_class, t.stage_id⟩))
        ∧ report.tasks_executed = (expand_tasks tasks).length
        ∧ (report.results.map Prod.fst).Nodup
        ∧ (∀ n, n ∈ report.results.map Prod.fst ↔ n ∈ (expand_tasks tasks).map ExpandedTask.name)
        ∧ (((expand_tasks tasks).map ExpandedTask.name).Nodup →
            report.results.length = (expand_tasks tasks).length))
    ∧ (∀ (env : Env) (p : RallyDataProcessor),
      ∃ report,
        (trigger_data_update [⟨"1", "3", some ["1", "2"]⟩, ⟨"2", "8", none⟩] env p).1 = .ok report
        ∧ report.tasks_executed = 3 ∧ report.results.length = 3) := by
  refine ⟨trigger_valid_batch_report, ?_⟩
  intro env p
  obtain ⟨report, heq, hexec, hnodup, hmem, hlenf⟩ :=
    trigger_valid_batch_report [⟨"1", "3", some ["1", "2"]⟩, ⟨"2", "8", none⟩] env p
      (by decide) (by decide)
  refine ⟨report, ?_, ?_, ?_⟩
  · rw [heq]
  · rw [hexec]; decide
  · rw [hlenf (by decide)]; decide

/-- C3 witness: the claim's two-request batch under a concrete failing
environment still yields 3 executed tasks and 3 report entries. -/
theorem trigger_expansion_report_spec_witness :
    ∃ report,
      (trigger_data_update [⟨"1", "3", some ["1", "2"]⟩, ⟨"2", "8", none⟩] envFail
        emptyProcessor).1 = .ok report
      ∧ report.tasks_executed = 3 ∧ report.results.length = 3 :=
  trigger_expansion_report_spec.2 envFail emptyProcessor

/-- C3 counterexample: a request that repeats a stage id expands to two tasks
sharing one task name, so the report has a single entry for two executed
tasks — not one entry per expanded task. -/
theorem trigger_duplicate_stage_report_counterexample :
    ((trigger_data_update [⟨"1", "3", some ["1", "1"]⟩] envFail emptyProcessor).1.toOption.map
      (fun report => (report.tasks_executed, report.results.length))) = some (2, 1) := rfl
